import Mathlib

set_option autoImplicit false

/-!
Verification of the rs_loglib rolling-file logger (`src/lib.rs`): a shallow
embedding of the rolling file writer, its rotation procedure, the line
formatter, the configuration builder, `init_logger`, and the `fatal!`
macro, together with proofs and refutations of the specified properties.
Filesystem calls that can fail are modelled with explicit fault flags.
-/

namespace RsLoglib

/-- A log level, mirroring `tracing::Level` as used by `Logger::log`. -/
inductive Level
  | trace
  | debug
  | info
  | warn
  | error
  deriving DecidableEq, Repr

/-- The `Level::as_str()` method of the tracing crate: the uppercase level name. -/
def Level.asStr : Level → String
  | .trace => "TRACE"
  | .debug => "DEBUG"
  | .info => "INFO"
  | .warn => "WARN"
  | .error => "ERROR"

/-- Model of `str::to_lowercase` restricted to ASCII, as applied to the level
names (all ASCII uppercase). -/
def lowerString (s : String) : String := String.mk (s.data.map Char.toLower)

/-- The `LogConfig` structure (lib.rs lines 169-178); paths are modelled as strings. -/
structure LogConfig where
  log_path : String
  max_files : Nat
  max_size : Nat
  is_async : Bool
  instant_flush : Bool
  file_name : String
  instance_name : String
  deriving DecidableEq, Repr

/-- Translation of `impl Default for LogConfig` (lib.rs lines 180-192), field by field. -/
def LogConfig.mkDefault : LogConfig :=
  { log_path := "C:/logs/"
    max_files := 5
    max_size := 20 * 1024 * 1024
    is_async := true
    instant_flush := false
    file_name := "record"
    instance_name := "default" }

/-- Rust `LogConfig::new()` (lib.rs lines 195-197): `Default::default()`. -/
def LogConfig.new : LogConfig := LogConfig.mkDefault

/-- Builder `with_path` (lib.rs lines 199-202). -/
def LogConfig.with_path (c : LogConfig) (p : String) : LogConfig :=
  { c with log_path := p }

/-- Builder `with_max_files` (lib.rs lines 204-207): stores the count unvalidated. -/
def LogConfig.with_max_files (c : LogConfig) (count : Nat) : LogConfig :=
  { c with max_files := count }

/-- Builder `with_max_size` (lib.rs lines 209-212). -/
def LogConfig.with_max_size (c : LogConfig) (size : Nat) : LogConfig :=
  { c with max_size := size }

/-- Builder `with_async` (lib.rs lines 214-217). -/
def LogConfig.with_async (c : LogConfig) (b : Bool) : LogConfig :=
  { c with is_async := b }

/-- Builder `with_instant_flush` (lib.rs lines 219-222). -/
def LogConfig.with_instant_flush (c : LogConfig) (b : Bool) : LogConfig :=
  { c with instant_flush := b }

/-- Builder `with_file_name` (lib.rs lines 224-227). -/
def LogConfig.with_file_name (c : LogConfig) (n : String) : LogConfig :=
  { c with file_name := n }

/-- Builder `with_instance_name` (lib.rs lines 229-232). -/
def LogConfig.with_instance_name (c : LogConfig) (n : String) : LogConfig :=
  { c with instance_name := n }

/-- The on-disk state of one writer's directory, by derived path:
`active` is `{stem}.log`, `numbered i` is `{stem}.{i}.log`; the value is
the file's byte length, `none` when no such file exists. -/
structure DiskFS where
  active : Option Nat
  numbered : Nat → Option Nat

/-- A directory holding just the active file, of length `l`. -/
def freshFS (l : Nat) : DiskFS :=
  { active := some l, numbered := fun _ => none }

/-- Model of `fs::rename` between two distinct numbered paths: the destination is
overwritten and the source ceases to exist. -/
def moveNum (num : Nat → Option Nat) (src dst : Nat) : Nat → Option Nat :=
  fun j => if j = src then none else if j = dst then num src else num j

/-- Fault injection for the fallible filesystem calls inside `rotate`:
`true` means that call returns an `io::Error`. -/
structure Faults where
  syncFail : Bool
  renameBackupFail : Nat → Bool
  renameActiveFail : Bool
  openFail : Bool
  removeFail : Bool

/-- Every filesystem call succeeds. -/
def noFaults : Faults :=
  { syncFail := false
    renameBackupFail := fun _ => false
    renameActiveFail := false
    openFail := false
    removeFail := false }

/-- The backup-shift loop of `rotate` (lib.rs lines 57-63):
`for i in (1..max_files).rev()` renames `{i}.log` to `{i+1}.log` when the
source exists.  `shiftM f num t` runs the body for `i = t, t-1, ..., 1`;
the Bool is `false` when a rename failed (the `?` stops the loop there). -/
def shiftM (f : Faults) (num : Nat → Option Nat) : Nat → (Nat → Option Nat) × Bool
  | 0 => (num, true)
  | t + 1 =>
    if (num (t + 1)).isSome then
      if f.renameBackupFail (t + 1) then (num, false)
      else shiftM f (moveNum num (t + 1) (t + 2)) t
    else shiftM f num t

/-- Result of `RollingFileWriter::rotate`: the disk state when the call
returns, the writer's `state.size` bookkeeping field at that point, and
whether the call returned `Ok`. -/
structure RotResult where
  fs : DiskFS
  size : Nat
  ok : Bool

/-- Model of `RollingFileWriter::rotate` (lib.rs lines 48-87) with injected faults;
each `?` early-returns, keeping the mutations made so far.  In order:
sync the current file; shift backups `max_files-1 .. 1` up by one; rename
`{stem}.log` to `{stem}.1.log` (renaming a missing source is an error);
open a fresh active file (create+append, so length 0 after the rename took
the old one away); set `state.size = 0`; if `{stem}.{max_files}.log`
exists, remove it. -/
def rotateM (f : Faults) (mf : Nat) (fs : DiskFS) (size : Nat) : RotResult :=
  if f.syncFail then ⟨fs, size, false⟩
  else
    let s1 := shiftM f fs.numbered (mf - 1)
    if !s1.2 then ⟨{ fs with numbered := s1.1 }, size, false⟩
    else if f.renameActiveFail || fs.active.isNone then
      ⟨{ fs with numbered := s1.1 }, size, false⟩
    else
      let fs2 : DiskFS :=
        { active := none
          numbered := fun j => if j = 1 then fs.active else s1.1 j }
      if f.openFail then ⟨fs2, size, false⟩
      else
        let fs3 : DiskFS := { fs2 with active := some 0 }
        if (fs3.numbered mf).isSome then
          if f.removeFail then ⟨fs3, 0, false⟩
          else
            ⟨{ fs3 with numbered := fun j => if j = mf then none else fs3.numbered j },
              0, true⟩
        else ⟨fs3, 0, true⟩

/-- The `RollingFileWriter` together with its locked `FileState`: `size` is
`state.size`; the open handle is modelled by the `fs.active` slot. -/
structure Writer where
  fs : DiskFS
  size : Nat
  maxSize : Nat
  maxFiles : Nat
  instantFlush : Bool

/-- Model of `RollingFileWriter::new` (lib.rs lines 31-46): open `{stem}.log` with
create+append and read the initial `size` from the file's metadata. -/
def newWriter (fs0 : DiskFS) (maxSize maxFiles : Nat) (instantFlush : Bool) : Writer :=
  { fs := { fs0 with active := some (fs0.active.getD 0) }
    size := fs0.active.getD 0
    maxSize := maxSize
    maxFiles := maxFiles
    instantFlush := instantFlush }

/-- Appending `n` bytes through the active handle
(`state.file.write(buf)` with a full write). -/
def appendActive (fs : DiskFS) (n : Nat) : DiskFS :=
  { fs with active := some (fs.active.getD 0 + n) }

/-- Result of one `write` call: the writer afterwards, whether the call
returned `Ok`, the byte count written, how many times `rotate` was
invoked, and whether an invoked rotation returned `Ok`. -/
structure WriteResult where
  w : Writer
  ok : Bool
  written : Nat
  rotations : Nat
  rotationOk : Bool

/-- Model of `<RollingFileWriter as Write>::write` (lib.rs lines 91-111) with
injected rotation faults.  When `state.size + buf.len() > self.max_size`
it calls `self.rotate()?` — a rotation error is propagated and nothing is
written — and otherwise appends the buffer to the active handle and adds
the written count to `state.size`. -/
def writeM (f : Faults) (w : Writer) (n : Nat) : WriteResult :=
  if w.maxSize < w.size + n then
    let r := rotateM f w.maxFiles w.fs w.size
    if r.ok then
      { w := { w with fs := appendActive r.fs n, size := r.size + n }
        ok := true, written := n, rotations := 1, rotationOk := true }
    else
      { w := { w with fs := r.fs, size := r.size }
        ok := false, written := 0, rotations := 1, rotationOk := false }
  else
    { w := { w with fs := appendActive w.fs n, size := w.size + n }
      ok := true, written := n, rotations := 0, rotationOk := true }

/-- A sequence of faultless `write` calls; returns the final writer and
the total number of rotations performed. -/
def writeAll (w : Writer) : List Nat → Writer × Nat
  | [] => (w, 0)
  | n :: ns =>
    let r := writeM noFaults w n
    let p := writeAll r.w ns
    (p.1, r.rotations + p.2)

/-- Iterated rotation: `k` successive faultless calls to `rotate`, tracking the disk state. -/
def iterRotate (mf : Nat) (fs : DiskFS) : Nat → DiskFS
  | 0 => fs
  | k + 1 => (rotateM noFaults mf (iterRotate mf fs k) 0).fs

/-- The spec's byte-accounting invariant: the bookkeeping size equals the
byte length of the file at the active path. -/
def sizeInv (w : Writer) : Prop := w.fs.active = some w.size

/-- Occupancy invariant of the backup window: the active file is present
and the numbered backups are exactly the indices `1..m`. -/
def occInv (m : Nat) (fs : DiskFS) : Prop :=
  fs.active.isSome = true ∧ ∀ j, ((fs.numbered j).isSome = true ↔ (1 ≤ j ∧ j ≤ m))

/-- Model of `Logger::log` (lib.rs lines 241-261), rendered line only.  The code
formats the pattern `"{} [{}][{}] {}\n"` with the timestamp, the
LOWERCASED level string, the thread hash (`hasher.finish() % 10000`,
printed unpadded), and the message — in that argument order. -/
def logLine (timestamp : String) (level : Level) (threadHashRaw : Nat)
    (message : String) : String :=
  timestamp ++ " [" ++ lowerString level.asStr ++ "]["
    ++ toString (threadHashRaw % 10000) ++ "] " ++ message ++ "\n"

/-- Left-pad `s` with `c` up to width `w`. -/
def padLeft (c : Char) (w : Nat) (s : String) : String :=
  String.mk (List.replicate (w - s.length) c) ++ s

/-- The line format asserted by the spec (section 6): thread tag in the
first bracket group, 5-digit zero-padded; level in the second, uppercase,
left-padded to 5 characters. -/
def specLogLine (timestamp : String) (level : Level) (threadHashRaw : Nat)
    (message : String) : String :=
  timestamp ++ " [" ++ padLeft (Char.ofNat 48) 5 (toString (threadHashRaw % 10000))
    ++ "][" ++ padLeft (Char.ofNat 32) 5 level.asStr ++ "] " ++ message ++ "\n"

/-- The line format of the amended claim: level (lowercased, unpadded) in
the first bracket group, thread tag (hash mod 10000, unpadded decimal) in
the second. -/
def amendedLogLine (timestamp : String) (level : Level) (threadHashRaw : Nat)
    (message : String) : String :=
  timestamp ++ " [" ++ lowerString level.asStr ++ "]["
    ++ toString (threadHashRaw % 10000) ++ "] " ++ message ++ "\n"

/-- Which writer handle the constructed `Logger` stores. -/
inductive WriterBinding
  | directWriter
  | nonBlockingWriter
  deriving DecidableEq, Repr

/-- What `init_logger` builds for the `Logger` it registers. -/
structure LoggerSetup where
  binding : WriterBinding
  nonBlockingCreated : Bool
  guardKept : Bool
  deriving DecidableEq, Repr

/-- Outcome of `init_logger`: `errReturn` is the `Err(io::Error)` value of
the declared return type `Result<String, io::Error>`; `panicked` is a
process panic raised by `.expect(..)`. -/
inductive InitOutcome
  | ok (instanceName : String) (setup : LoggerSetup)
  | errReturn
  | panicked (msg : String)
  deriving DecidableEq, Repr

/-- Model of `init_logger` (lib.rs lines 268-300), with the success of
`create_dir_all` and of `RollingFileWriter::new` as parameters.  Both
calls are wrapped in `.expect(..)`, so their failures panic.  No field of
the configuration is validated.  When `is_async` is set the code calls
`tracing_appender::non_blocking(file_writer.clone())`, binds the returned
writer to the discarded `_writer`, keeps only the guard, and stores the
original synchronous `file_writer` in the `Logger` it registers. -/
def init_logger (dirCreateOk fileOpenOk : Bool) (config : LogConfig) : InitOutcome :=
  if !dirCreateOk then .panicked "Failed to create log directory"
  else if !fileOpenOk then .panicked "Failed to create rolling file writer"
  else
    .ok config.instance_name
      { binding := .directWriter
        nonBlockingCreated := config.is_async
        guardKept := config.is_async }

/-- Result of expanding and running the `fatal!` macro. -/
structure FatalResult where
  logged : Option (Level × String)
  exitCode : Option Nat
  deriving DecidableEq, Repr

/-- The `fatal!` macro (lib.rs lines 338-346): when the registry holds the
instance, call `logger.log(Level::ERROR, format!("FATAL: {}", ..))` and
discard its result (`writeOk`); then `std::process::exit(1)` in every
case. -/
def fatalBang (registry : String → Option LoggerSetup) (inst msg : String)
    (writeOk : Bool) : FatalResult :=
  match registry inst with
  | some _ =>
    let _ := writeOk
    { logged := some (.error, "FATAL: " ++ msg), exitCode := some 1 }
  | none => { logged := none, exitCode := some 1 }

/-- Example writer: active file of 90 bytes, limit 100, three files. -/
def exWriter : Writer :=
  { fs := freshFS 90, size := 90, maxSize := 100, maxFiles := 3, instantFlush := false }

/-- Faults where only the open of the fresh active file fails. -/
def openFault : Faults := { noFaults with openFail := true }

/-- Example configuration with `max_files = 0`. -/
def cfgZero : LogConfig := LogConfig.new.with_max_files 0

/-- Example writer configured with `max_files = 0`. -/
def wZero : Writer :=
  { fs := freshFS 8, size := 8, maxSize := 10, maxFiles := 0, instantFlush := false }

/-! Helper lemmas about the faultless execution paths. -/

/-- Projection of `noFaults`: backup renames succeed. -/
theorem noFaults_renameBackup (i : Nat) : noFaults.renameBackupFail i = false := rfl

/-- Projection of `noFaults`: the sync succeeds. -/
theorem noFaults_sync : noFaults.syncFail = false := rfl

/-- Projection of `noFaults`: renaming the active file succeeds. -/
theorem noFaults_renameActive : noFaults.renameActiveFail = false := rfl

/-- Projection of `noFaults`: opening the fresh file succeeds. -/
theorem noFaults_open : noFaults.openFail = false := rfl

/-- Projection of `noFaults`: removing the oldest file succeeds. -/
theorem noFaults_remove : noFaults.removeFail = false := rfl

/-- The faultless backup-shift loop always returns `Ok`. -/
theorem shiftM_ok (t : Nat) (num : Nat → Option Nat) :
    (shiftM noFaults num t).2 = true := by
  induction t generalizing num with
  | zero => rfl
  | succ s ih =>
    rw [shiftM]
    by_cases h : (num (s + 1)).isSome
    · simp only [h, if_true, noFaults_renameBackup, Bool.false_eq_true, if_false]
      exact ih _
    · simp only [h, if_false, Bool.false_eq_true]
      exact ih _

/-- Pointwise effect of the faultless backup-shift loop over indices
`t, t-1, ..., 1` on a directory whose index `t+1` is vacant: index 1 is
vacated, every index `2..t+1` receives the old content of its
predecessor, and all other indices are untouched. -/
theorem shiftM_spec (t : Nat) (num : Nat → Option Nat) (hnone : num (t + 1) = none)
    (j : Nat) :
    (shiftM noFaults num t).1 j =
      if 1 ≤ j ∧ j ≤ t then (if j = 1 then none else num (j - 1))
      else if j = t + 1 ∧ 1 ≤ t then num t
      else num j := by
  induction t generalizing num with
  | zero =>
    simp only [shiftM]
    have h1 : ¬ (1 ≤ j ∧ j ≤ 0) := by omega
    have h2 : ¬ (j = 0 + 1 ∧ 1 ≤ 0) := by omega
    rw [if_neg h1, if_neg h2]
  | succ s ih =>
    rw [shiftM]
    by_cases h : (num (s + 1)).isSome
    · simp only [h, if_true, noFaults_renameBackup, Bool.false_eq_true, if_false]
      have hm : (moveNum num (s + 1) (s + 2)) (s + 1) = none := by
        simp [moveNum]
      rw [ih (moveNum num (s + 1) (s + 2)) hm]
      simp only [moveNum]
      split_ifs <;> first | rfl | omega | simp_all
    · simp only [h, Bool.false_eq_true, if_false]
      have hB : num (s + 1) = none := by
        cases hnum : num (s + 1) with
        | none => rfl
        | some v => rw [hnum] at h; simp at h
      rw [ih num hB]
      split_ifs <;> first | rfl | omega | simp_all

/-- A faultless rotation with an existing active file returns `Ok`, resets
the bookkeeping size to 0, and leaves a fresh empty active file. -/
theorem rotateM_noFaults_ok (mf : Nat) (fs : DiskFS) (s : Nat)
    (h : fs.active.isSome = true) :
    (rotateM noFaults mf fs s).ok = true
      ∧ (rotateM noFaults mf fs s).size = 0
      ∧ (rotateM noFaults mf fs s).fs.active = some 0 := by
  have hnn : fs.active.isNone = false := by
    cases hh : fs.active with
    | none => rw [hh] at h; simp at h
    | some v => rfl
  rw [rotateM]
  simp only [noFaults_sync, noFaults_renameActive, noFaults_open, noFaults_remove,
    shiftM_ok, Bool.not_true, Bool.false_eq_true, if_false, hnn, Bool.or_self]
  split_ifs <;> exact ⟨rfl, rfl, rfl⟩

/-- Pointwise description of the numbered files after a faultless
rotation: index `mf` is removed, index 1 receives the old active file, the
rest is the result of the backup-shift loop. -/
theorem rotateM_noFaults_numbered (mf : Nat) (fs : DiskFS) (s : Nat)
    (h : fs.active.isSome = true) (j : Nat) :
    (rotateM noFaults mf fs s).fs.numbered j =
      if j = mf then none
      else if j = 1 then fs.active
      else (shiftM noFaults fs.numbered (mf - 1)).1 j := by
  have hnn : fs.active.isNone = false := by
    cases hh : fs.active with
    | none => rw [hh] at h; simp at h
    | some v => rfl
  rw [rotateM]
  simp only [noFaults_sync, noFaults_renameActive, noFaults_open, noFaults_remove,
    shiftM_ok, Bool.not_true, Bool.false_eq_true, if_false, hnn, Bool.or_self]
  by_cases hG : ((if mf = 1 then fs.active
      else (shiftM noFaults fs.numbered (mf - 1)).1 mf).isSome) = true
  · rw [if_pos hG]
  · rw [if_neg hG]
    by_cases hj : j = mf
    · subst hj
      rw [if_pos rfl]
      exact Option.not_isSome_iff_eq_none.mp hG
    · rw [if_neg hj]

/-- One faultless rotation maps a window with backups `1..m` (with
`m ≤ N-1`) to a window with backups `1..min (m+1) (N-1)`. -/
theorem rotate_occ {N m : Nat} {fs : DiskFS} (hN : 1 ≤ N) (hm : m ≤ N - 1)
    (h : occInv m fs) : occInv (min (m + 1) (N - 1)) (rotateM noFaults N fs 0).fs := by
  obtain ⟨hact, hocc⟩ := h
  have hNnum : fs.numbered N = none := by
    have hx := hocc N
    cases hv : fs.numbered N with
    | none => rfl
    | some v =>
      rw [hv] at hx
      simp only [Option.isSome_some, true_iff] at hx
      omega
  have hN1 : N - 1 + 1 = N := by omega
  constructor
  · rw [(rotateM_noFaults_ok N fs 0 hact).2.2]
    rfl
  · intro j
    rw [rotateM_noFaults_numbered N fs 0 hact j,
      shiftM_spec (N - 1) fs.numbered (by rw [hN1]; exact hNnum) j]
    by_cases hjN : j = N
    · subst hjN
      rw [if_pos rfl]
      simp only [Option.isSome_none, Bool.false_eq_true, false_iff]
      omega
    · rw [if_neg hjN]
      by_cases hj1 : j = 1
      · subst hj1
        rw [if_pos rfl]
        simp only [hact, true_iff]
        omega
      · rw [if_neg hj1]
        by_cases hr : 1 ≤ j ∧ j ≤ N - 1
        · rw [if_pos hr, if_neg hj1]
          rw [hocc (j - 1)]
          omega
        · rw [if_neg hr]
          by_cases hr2 : j = N - 1 + 1 ∧ 1 ≤ N - 1
          · rw [if_pos hr2]
            rw [hocc (N - 1)]
            omega
          · rw [if_neg hr2]
            rw [hocc j]
            omega

/-- After `k` faultless rotations from a fresh directory, the backups are
exactly `1..min k (N-1)`. -/
theorem iterRotate_occ (N : Nat) (hN : 1 ≤ N) (l k : Nat) :
    occInv (min k (N - 1)) (iterRotate N (freshFS l) k) := by
  induction k with
  | zero =>
    constructor
    · rfl
    · intro j
      simp only [iterRotate, freshFS, Option.isSome_none, Bool.false_eq_true, false_iff]
      omega
  | succ k ih =>
    have step := rotate_occ hN (by omega) ih
    have hmin : min (min k (N - 1) + 1) (N - 1) = min (k + 1) (N - 1) := by omega
    rw [hmin] at step
    exact step

/-- A sequence of writes whose total stays within the budget performs no
rotation and adds exactly the written bytes to the bookkeeping size. -/
theorem writeAll_rot_zero (ns : List Nat) :
    ∀ w : Writer, w.size + ns.sum ≤ w.maxSize →
      (writeAll w ns).2 = 0 ∧ (writeAll w ns).1.size = w.size + ns.sum := by
  induction ns with
  | nil => intro w h; exact ⟨rfl, by simp [writeAll]⟩
  | cons n ns ih =>
    intro w h
    have hsum : w.size + n + ns.sum ≤ w.maxSize := by
      simp only [List.sum_cons] at h
      omega
    have hn : ¬ (w.maxSize < w.size + n) := by omega
    have hrec := ih { w with fs := appendActive w.fs n, size := w.size + n } hsum
    rw [writeAll]
    simp only [writeM, if_neg hn]
    refine ⟨?_, ?_⟩
    · simpa using hrec.1
    · simp only [List.sum_cons]
      simpa [Nat.add_assoc] using hrec.2

/-! Claims. -/

/-- Claim C1, counterexample: a concrete write on a 90-byte active file
with limit 100 triggers a rotation; the injected failure of the fresh-file
open makes `rotate` fail, and the write call then returns an error with
nothing written — the bytes are NOT still written to the current file, so
the claim that a rotation failure does not abort the write is false. -/
theorem C1_counterexample :
    (writeM openFault exWriter 20).rotations = 1
    ∧ (writeM openFault exWriter 20).rotationOk = false
    ∧ (writeM openFault exWriter 20).ok = false
    ∧ (writeM openFault exWriter 20).written = 0 := by decide

/-- Claim C1, amended: when the size check triggers a rotation and the
rotation fails, `write` propagates the error (`self.rotate()?`): the call
returns `Err`, writes nothing, and leaves the disk exactly as the failed
rotation left it — the data of that call is dropped rather than written to
the oversized file. -/
theorem C1_rotate_failure_aborts_write (f : Faults) (w : Writer) (n : Nat)
    (hov : w.maxSize < w.size + n)
    (hbad : (rotateM f w.maxFiles w.fs w.size).ok = false) :
    (writeM f w n).ok = false ∧ (writeM f w n).written = 0
    ∧ (writeM f w n).rotations = 1
    ∧ (writeM f w n).w.fs = (rotateM f w.maxFiles w.fs w.size).fs := by
  simp only [writeM, if_pos hov]
  rw [if_neg (by simp [hbad])]
  exact ⟨rfl, rfl, rfl, rfl⟩

/-- Claim C1, witness: the amended theorem applied at the concrete
oversized write with the open fault. -/
theorem C1_rotate_failure_aborts_write_witness :
    exWriter.maxSize < exWriter.size + 20
    ∧ (rotateM openFault exWriter.maxFiles exWriter.fs exWriter.size).ok = false
    ∧ ((writeM openFault exWriter 20).ok = false
      ∧ (writeM openFault exWriter 20).written = 0
      ∧ (writeM openFault exWriter 20).rotations = 1
      ∧ (writeM openFault exWriter 20).w.fs
          = (rotateM openFault exWriter.maxFiles exWriter.fs exWriter.size).fs) :=
  ⟨by decide, by decide,
    C1_rotate_failure_aborts_write openFault exWriter 20 (by decide) (by decide)⟩

/-- Claim C2, counterexample: after the same failed rotation (fresh-file
open fails after `{stem}.log` was renamed to `{stem}.1.log`), the
bookkeeping size is still 90 while no file exists at the active path — the
writer keeps the stale counter and performs no re-derivation from the
active file's length, so the invariant does not hold after every
operation. -/
theorem C2_counterexample :
    (writeM openFault exWriter 20).rotations = 1
    ∧ (writeM openFault exWriter 20).rotationOk = false
    ∧ (writeM openFault exWriter 20).w.size = 90
    ∧ (writeM openFault exWriter 20).w.fs.active = none
    ∧ ¬ sizeInv (writeM openFault exWriter 20).w := by
  have hns : ¬ ((writeM openFault exWriter 20).w.fs.active
      = some ((writeM openFault exWriter 20).w.size)) := by decide
  exact ⟨by decide, by decide, by decide, by decide, hns⟩

/-- Claim C2, amended: the byte-accounting invariant `currentSize` equals
the active file's length is established at creation and preserved by every
faultless write; but when a rotation fails, the writer keeps whatever
bookkeeping value the partial rotation left (the stale old size, or 0 when
the failure came after the reset) and the disk state of the failed
rotation — it never re-derives `currentSize` from the active file. -/
theorem C2_size_accounting :
    (∀ (fs0 : DiskFS) (ms mf : Nat) (fl : Bool), sizeInv (newWriter fs0 ms mf fl))
    ∧ (∀ (w : Writer) (n : Nat), sizeInv w → sizeInv (writeM noFaults w n).w)
    ∧ (∀ (f : Faults) (w : Writer) (n : Nat),
        w.maxSize < w.size + n → (rotateM f w.maxFiles w.fs w.size).ok = false →
        (writeM f w n).w.size = (rotateM f w.maxFiles w.fs w.size).size
        ∧ (writeM f w n).w.fs = (rotateM f w.maxFiles w.fs w.size).fs) := by
  refine ⟨?_, ?_, ?_⟩
  · intro fs0 ms mf fl
    exact rfl
  · intro w n hinv
    have hact : w.fs.active.isSome = true := by
      rw [show w.fs.active = some w.size from hinv]
      rfl
    have robj := rotateM_noFaults_ok w.maxFiles w.fs w.size hact
    by_cases hov : w.maxSize < w.size + n
    · show (writeM noFaults w n).w.fs.active = some (writeM noFaults w n).w.size
      simp only [writeM, if_pos hov, if_pos robj.1]
      simp [appendActive, robj.2.2, robj.2.1]
    · show (writeM noFaults w n).w.fs.active = some (writeM noFaults w n).w.size
      simp only [writeM, if_neg hov]
      simp [appendActive, show w.fs.active = some w.size from hinv]
  · intro f w n hov hbad
    simp only [writeM, if_pos hov]
    rw [if_neg (by simp [hbad])]
    exact ⟨rfl, rfl⟩

/-- Claim C2, witness: the amended theorem's preservation part applied to
a concrete faultless write on a consistent writer. -/
theorem C2_size_accounting_witness :
    sizeInv exWriter ∧ sizeInv (writeM noFaults exWriter 5).w :=
  ⟨rfl, C2_size_accounting.2.1 exWriter 5 rfl⟩

/-- Claim C3: a write of `n` bytes rotates iff `size + n > maxSize`
(strictly), at most one rotation happens per call, a triggered rotation
completes before the bytes land and the write then succeeds into the fresh
active file (which afterwards holds exactly those `n` bytes); and a
sequence of writes whose cumulative size stays within `maxSize` performs
no rotation. -/
theorem C3_rotate_trigger (w : Writer) (n : Nat) (h : w.fs.active.isSome = true) :
    ((writeM noFaults w n).rotations = 1 ↔ w.maxSize < w.size + n)
    ∧ (writeM noFaults w n).rotations ≤ 1
    ∧ (w.maxSize < w.size + n →
        (writeM noFaults w n).ok = true
        ∧ (writeM noFaults w n).rotationOk = true
        ∧ (writeM noFaults w n).w.fs.active = some n
        ∧ (writeM noFaults w n).w.size = n)
    ∧ (∀ ns : List Nat, w.size = 0 → ns.sum ≤ w.maxSize → (writeAll w ns).2 = 0) := by
  have robj := rotateM_noFaults_ok w.maxFiles w.fs w.size h
  refine ⟨?_, ?_, ?_, ?_⟩
  · by_cases hov : w.maxSize < w.size + n
    · have h1 : (writeM noFaults w n).rotations = 1 := by
        simp only [writeM, if_pos hov]
        split <;> rfl
      simp [h1, hov]
    · have h0 : (writeM noFaults w n).rotations = 0 := by
        simp only [writeM, if_neg hov]
      simp [h0, hov]
  · by_cases hov : w.maxSize < w.size + n
    · have h1 : (writeM noFaults w n).rotations = 1 := by
        simp only [writeM, if_pos hov]
        split <;> rfl
      omega
    · have h0 : (writeM noFaults w n).rotations = 0 := by
        simp only [writeM, if_neg hov]
      omega
  · intro hov
    simp only [writeM, if_pos hov, if_pos robj.1]
    refine ⟨by trivial, by trivial, ?_, ?_⟩
    · show (appendActive (rotateM noFaults w.maxFiles w.fs w.size).fs n).active = some n
      simp [appendActive, robj.2.2]
    · show (rotateM noFaults w.maxFiles w.fs w.size).size + n = n
      simp [robj.2.1]
  · intro ns h0 hsum
    exact (writeAll_rot_zero ns w (by omega)).1

/-- Claim C3, witness: the rotation-trigger equivalence applied to the
concrete writer whose 20-byte write crosses the 100-byte limit. -/
theorem C3_rotate_trigger_witness :
    exWriter.fs.active.isSome = true
    ∧ ((writeM noFaults exWriter 20).rotations = 1
        ↔ exWriter.maxSize < exWriter.size + 20) :=
  ⟨by decide, (C3_rotate_trigger exWriter 20 (by decide)).1⟩

/-- Claim C4: starting from a fresh directory, after `k` successfully
completed rotations with `maxFiles = N ≥ 1` exactly the backups
`1..min k (N-1)` exist, no file with index at least `N` exists, and the
next rotation also completes successfully. -/
theorem C4_backup_window (N k l : Nat) (hN : 1 ≤ N) :
    (∀ j, (((iterRotate N (freshFS l) k).numbered j).isSome = true)
        ↔ (1 ≤ j ∧ j ≤ min k (N - 1)))
    ∧ (∀ j, N ≤ j → (iterRotate N (freshFS l) k).numbered j = none)
    ∧ (rotateM noFaults N (iterRotate N (freshFS l) k) 0).ok = true := by
  obtain ⟨hact, hocc⟩ := iterRotate_occ N hN l k
  refine ⟨hocc, ?_, (rotateM_noFaults_ok _ _ _ hact).1⟩
  intro j hj
  have hx := hocc j
  cases hv : (iterRotate N (freshFS l) k).numbered j with
  | none => rfl
  | some v =>
    rw [hv] at hx
    simp only [Option.isSome_some, true_iff] at hx
    omega

/-- Claim C4, witness: the window description applied at `N = 3`, `k = 5`,
index 2 (a retained backup). -/
theorem C4_backup_window_witness :
    1 ≤ 3
    ∧ ((((iterRotate 3 (freshFS 0) 5).numbered 2).isSome = true)
        ↔ (1 ≤ 2 ∧ 2 ≤ min 5 (3 - 1))) :=
  ⟨by decide, (C4_backup_window 3 5 0 (by decide)).1 2⟩

/-- Claim C5, counterexample: the rendered line puts the LOWERCASED level
in the first bracket group and the unpadded thread hash in the second, so
it differs from the spec's claimed format (zero-padded 5-digit thread tag
first, uppercase level padded to 5 second) on a concrete input. -/
theorem C5_counterexample :
    logLine "2026-01-02 03:04:05.678" Level.info 7 "hello"
      = "2026-01-02 03:04:05.678 [info][7] hello\n"
    ∧ specLogLine "2026-01-02 03:04:05.678" Level.info 7 "hello"
      = "2026-01-02 03:04:05.678 [00007][ INFO] hello\n"
    ∧ logLine "2026-01-02 03:04:05.678" Level.info 7 "hello"
      ≠ specLogLine "2026-01-02 03:04:05.678" Level.info 7 "hello" := by decide

/-- Claim C5, amended: every rendered line has the form
`"<timestamp> [<level, lowercase, unpadded>][<thread hash mod 10000,
unpadded decimal>] <message>\n"` — the level occupies the first bracket
group and the thread tag the second, and the tag is below 10000. -/
theorem C5_line_format (ts : String) (lvl : Level) (tid : Nat) (msg : String) :
    logLine ts lvl tid msg = amendedLogLine ts lvl tid msg
    ∧ tid % 10000 < 10000 :=
  ⟨rfl, Nat.mod_lt tid (by decide)⟩

/-- Claim C6: with async requested, `init_logger` creates the non-blocking
relay but binds its writer to the discarded `_writer` and keeps only the
guard; the registered `Logger` stores the original synchronous
`file_writer`, so log calls write synchronously and nothing is ever
enqueued to the background worker — contradicting the async contract the
code itself sets up the guard for. -/
theorem C6_async_writer_discarded :
    (LogConfig.new.with_async true).is_async = true
    ∧ init_logger true true (LogConfig.new.with_async true)
      = .ok "default"
          { binding := .directWriter, nonBlockingCreated := true, guardKept := true } := by
  decide

/-- Claim C7: both fallible I/O steps of `init_logger` are wrapped in
`.expect(..)`, so a directory-creation or file-open failure panics the
process instead of being returned; the declared `Err(io::Error)` outcome
is unreachable — every run either panics or returns `Ok`. -/
theorem C7_init_failures_panic :
    init_logger false true LogConfig.new = .panicked "Failed to create log directory"
    ∧ init_logger true false LogConfig.new
      = .panicked "Failed to create rolling file writer"
    ∧ ∀ (d fo : Bool) (cfg : LogConfig),
        init_logger d fo cfg
          = .ok cfg.instance_name
              { binding := .directWriter, nonBlockingCreated := cfg.is_async,
                guardKept := cfg.is_async }
        ∨ init_logger d fo cfg = .panicked "Failed to create log directory"
        ∨ init_logger d fo cfg = .panicked "Failed to create rolling file writer" := by
  refine ⟨by decide, by decide, ?_⟩
  intro d fo cfg
  cases d
  · right; left; rfl
  · cases fo
    · right; right; rfl
    · left; rfl

/-- Claim C8, counterexample: the builder's starting value has
`log_path = "C:/logs/"` (not `logs/`) and `is_async = true` (not
disabled). -/
theorem C8_counterexample :
    LogConfig.new.log_path = "C:/logs/"
    ∧ LogConfig.new.log_path ≠ "logs/"
    ∧ LogConfig.new.is_async = true
    ∧ LogConfig.new.is_async ≠ false := by decide

/-- Claim C8, amended: `LogConfig::new()` defaults are path `C:/logs/`,
max size 20 MiB, max files 5, async ENABLED, instant-flush disabled, file
name `record`, instance name `default`. -/
theorem C8_defaults :
    LogConfig.new =
      { log_path := "C:/logs/", max_files := 5, max_size := 20 * 1024 * 1024,
        is_async := true, instant_flush := false, file_name := "record",
        instance_name := "default" } := rfl

/-- Claim C9, counterexample: a configuration with `max_files = 0`
registers successfully (no configuration error), and a writer with
`maxFiles = 0` still attempts — and completes — a rotation when a write
crosses the size limit, renaming the active file to `{stem}.1.log`. -/
theorem C9_counterexample :
    cfgZero.max_files = 0
    ∧ init_logger true true cfgZero
      = .ok "default"
          { binding := .directWriter, nonBlockingCreated := true, guardKept := true }
    ∧ wZero.maxFiles = 0
    ∧ (writeM noFaults wZero 5).rotations = 1
    ∧ (writeM noFaults wZero 5).rotationOk = true
    ∧ (writeM noFaults wZero 5).w.fs.numbered 1 = some 8 := by decide

/-- Claim C9, amended: registration validates nothing — any
configuration, `max_files = 0` included, is accepted — and the write path
attempts a rotation whenever the size check fires, regardless of
`maxFiles`. -/
theorem C9_no_validation (cfg : LogConfig) (w : Writer) (n : Nat)
    (hmf : w.maxFiles = 0) (hov : w.maxSize < w.size + n) :
    init_logger true true cfg
      = .ok cfg.instance_name
          { binding := .directWriter, nonBlockingCreated := cfg.is_async,
            guardKept := cfg.is_async }
    ∧ (writeM noFaults w n).rotations = 1 := by
  refine ⟨rfl, ?_⟩
  simp only [writeM, if_pos hov]
  split <;> rfl

/-- Claim C9, witness: the amended theorem applied to the zero-max-files
configuration and writer. -/
theorem C9_no_validation_witness :
    wZero.maxFiles = 0
    ∧ wZero.maxSize < wZero.size + 5
    ∧ (init_logger true true cfgZero
        = .ok cfgZero.instance_name
            { binding := .directWriter, nonBlockingCreated := cfgZero.is_async,
              guardKept := cfgZero.is_async }
      ∧ (writeM noFaults wZero 5).rotations = 1) :=
  ⟨by decide, by decide, C9_no_validation cfgZero wZero 5 (by decide) (by decide)⟩

/-- Claim C10: the `fatal!` macro exits with code 1 for every registry
state, instance name, message, and write-attempt outcome; a line is logged
exactly when the instance is registered, so an unregistered name exits
without writing anything. -/
theorem C10_fatal_always_exits (registry : String → Option LoggerSetup)
    (inst msg : String) (writeOk : Bool) :
    (fatalBang registry inst msg writeOk).exitCode = some 1
    ∧ ((fatalBang registry inst msg writeOk).logged).isSome = (registry inst).isSome := by
  cases h : registry inst <;> simp [fatalBang, h]

end RsLoglib
